import Mathlib

/-!
Verification of the botwaf request-inspection and forwarding pipeline.

The definitions below are a shallow embedding of the Rust sources:
  * `src/config/config.rs` — configuration records and their defaults;
  * `src/types/server.rs` — `HttpIncomingRequest::new` (ingress adapter);
  * `src/server/forwarder_http.rs` — `HttpForwardHandler`
    (`get_upstream_url`, `do_forward_request`, `http_forward`);
  * `src/server/src/waf/ipfilter_redis.rs` — `RedisIPFilter`
    (`get_client_ip`, `get_ip_bitmap_offset`, `is_blocked`, `block_ip`,
    `unblock_ip`), with the Redis bitmap modelled as a function from
    offsets to bits implementing SETBIT/GETBIT;
  * `src/server/server.rs` — `botwaf_middleware`.

Machine integers are modelled as `Nat` with explicit `% 2^w` where the
Rust code truncates.  Fallible Rust code (`Result`) is modelled with
`Except String`; a Rust `panic!`/`unwrap` failure is modelled as `none`
or a dedicated `panicked` outcome.  External collaborators (the IP
string parser of `std::net`, the ModSecurity engine, the network) enter
as parameters.
-/

set_option autoImplicit false

namespace Botwaf

/-- Structure `ForwardProperties` from `config.rs` (fields used by the pipeline). -/
structure ForwardProperties where
  maxBodyBytes : Nat
  httpProxy : Option String
  connectTimeout : Nat
  readTimeout : Nat
  totalTimeout : Nat
  verbose : Bool
  upstreamDestinationHeaderName : String
deriving Repr, DecidableEq

/-- Structure `BotwafProperties` from `config.rs` (fields used by the pipeline). -/
structure BotwafProperties where
  blockedStatusCode : Option Nat
  blockedHeaderName : String
  allowAdditionModsecInfo : Bool
  forward : ForwardProperties
deriving Repr, DecidableEq

/-- Defaults of `impl Default for ForwardProperties` in `config.rs`. -/
def ForwardProperties.default : ForwardProperties :=
  { maxBodyBytes := 65535
    httpProxy := none
    connectTimeout := 5
    readTimeout := 5
    totalTimeout := 10
    verbose := false
    upstreamDestinationHeaderName := "X-Upstream-Destination" }

/-- Defaults of `impl Default for BotwafProperties` in `config.rs`. -/
def BotwafProperties.default : BotwafProperties :=
  { blockedStatusCode := none
    blockedHeaderName := "X-BotWaf-Blocked"
    allowAdditionModsecInfo := true
    forward := ForwardProperties.default }

/-! ## Header map

`HttpIncomingRequest.headers` is a Rust `HashMap<String, Option<String>>`.
We model it as an association list without duplicate keys; inserting an
existing key overwrites its value, as `HashMap` insertion does. -/

/-- Model of the `HashMap<String, Option<String>>` of `HttpIncomingRequest`. -/
abbrev HeaderMap := List (String × Option String)

/-- Model of `HashMap::insert`: overwrite the value when the key is present. -/
def hmInsert (m : HeaderMap) (k : String) (v : Option String) : HeaderMap :=
  if m.any (fun p => p.1 == k) then
    m.map (fun p => if p.1 == k then (k, v) else p)
  else
    m ++ [(k, v)]

/-- Model of `HashMap::get`: exact (case-sensitive) key lookup. -/
def hmGet (m : HeaderMap) (k : String) : Option (Option String) :=
  (m.find? (fun p => p.1 == k)).map Prod.snd

/-! ## String primitives

The case folds and slash tests of the Rust code are modelled over
`String.data` so that they reduce structurally; header names and the
strings compared here are ASCII, where Rust `str::to_lowercase` and
`str::to_uppercase` agree with the per-character fold. -/

/-- ASCII lowercase of a string. -/
def strLower (s : String) : String := String.mk (s.data.map Char.toLower)

/-- ASCII uppercase of a string. -/
def strUpper (s : String) : String := String.mk (s.data.map Char.toUpper)

/-- Test of Rust `str::ends_with('/')`. -/
def endsWithSlash (s : String) : Bool := s.data.getLast? == some '/'

/-- Test of Rust `str::starts_with('/')`. -/
def startsWithSlash (s : String) : Bool := s.data.head? == some '/'

/-- Byte slice `&s[1..]` of a string that starts with the one-byte
character `/`: drop the first character. -/
def dropFirst (s : String) : String := String.mk (s.data.drop 1)

/-! ## Ingress adapter (`src/types/server.rs`) -/

/-- A framework-supplied inbound request, before the ingress adapter runs.
Header names and values are as seen through `http::HeaderMap` iteration
(repeated names yield repeated entries, in insertion order).  `peerAddr`
is the transport peer address from the request extensions, already
rendered as a string. -/
structure RawRequest where
  method : String
  scheme : Option String
  host : Option String
  port : Option Nat
  path : String
  query : Option String
  headers : List (String × String)
  body : List Nat
  peerAddr : Option String
deriving Repr, DecidableEq

/-- Model of `axum::body::to_bytes(body, limit)`: materializes the body, failing
when it is larger than `limit` bytes. -/
def toBytes (body : List Nat) (limit : Nat) : Option (List Nat) :=
  if body.length ≤ limit then some body else none

/-- Model of `HeaderMap::get(name)` of the `http` crate: case-insensitive lookup
returning the first value of the header. -/
def headerGetFirst (headers : List (String × String)) (name : String) : Option String :=
  (headers.find? (fun p => strLower p.1 == strLower name)).map Prod.snd

/-- The header extraction of `HttpIncomingRequest::new`: each
`(name, value)` pair of the `http::HeaderMap` is collected into a
`HashMap<String, Option<String>>`.  `HeaderName::as_str` is lowercase
(the `http` crate normalizes header names), and `value.to_str().ok()`
wraps the value in an option. -/
def extractHeaders (headers : List (String × String)) : HeaderMap :=
  headers.foldl (fun m p => hmInsert m (strLower p.1) (some p.2)) []

/-- The client-IP extraction of `HttpIncomingRequest::new`:
`X-Forwarded-For`, else `X-Real-IP`, else the transport peer address.
The selected header value is taken whole. -/
def extractClientIp (raw : RawRequest) : Option String :=
  (((headerGetFirst raw.headers "X-Forwarded-For").or
      (headerGetFirst raw.headers "X-Real-IP"))).or raw.peerAddr

/-- The internal request value produced by the ingress adapter
(`HttpIncomingRequest` in `src/types/server.rs`). -/
structure HttpIncomingRequest where
  method : String
  scheme : Option String
  host : Option String
  port : Option Nat
  headers : HeaderMap
  path : String
  query : Option String
  body : Option (List Nat)
  clientIp : Option String
deriving Repr, DecidableEq

/-- Embedding of `HttpIncomingRequest::new`.  The body is read through
`to_bytes(body, 65535).expect(..)`: the byte cap is the literal `65535`
(the configured `forward.max_body_bytes` is not consulted), and an
oversized body panics, modelled as `none`. -/
def HttpIncomingRequest.new (raw : RawRequest) : Option HttpIncomingRequest :=
  match toBytes raw.body 65535 with
  | none => none
  | some bytes =>
      some { method := raw.method
             scheme := raw.scheme
             host := raw.host
             port := raw.port
             headers := extractHeaders raw.headers
             path := raw.path
             query := raw.query
             body := some bytes
             clientIp := extractClientIp raw }

/-! ## Forwarder (`src/server/forwarder_http.rs`) -/

/-- Embedding of `HttpForwardHandler::get_upstream_url`: read the header named by
`forward.upstream_destination_header_name` with an exact `HashMap` key
lookup, then join the base URI and the request path with slash
normalization. -/
def getUpstreamUrl (cfg : BotwafProperties) (incoming : HttpIncomingRequest) :
    Except String String :=
  let name := cfg.forward.upstreamDestinationHeaderName
  match hmGet incoming.headers name with
  | none => .error ("Missing upstream destination header with " ++ name)
  | some h =>
      let base := h.getD ""
      let url :=
        if endsWithSlash base && startsWithSlash incoming.path then
          base ++ dropFirst incoming.path
        else if !endsWithSlash base && !startsWithSlash incoming.path then
          base ++ "/" ++ incoming.path
        else
          base ++ incoming.path
      .ok url

/-- The URL argument that `do_forward_request` passes to
`client.request(..)`: the incoming request path. -/
def forwardRequestTarget (incoming : HttpIncomingRequest) : String :=
  incoming.path

/-- The header-copy loop of `do_forward_request`: every header whose
uppercased name is not the uppercased upstream-destination header name,
not `POST`, and not `CONNECTION` is emitted once per value. -/
def forwardedHeaders (cfg : BotwafProperties) (incoming : HttpIncomingRequest) :
    List (String × String) :=
  let upstreamHeader := strUpper cfg.forward.upstreamDestinationHeaderName
  incoming.headers.foldl
    (fun acc p =>
      let name := strUpper p.1
      if name ≠ upstreamHeader ∧ name ≠ "POST" ∧ name ≠ "CONNECTION" then
        acc ++ (p.2.toList.map (fun v => (name, v)))
      else acc)
    []

/-- The outbound request assembled by `do_forward_request`, up to the
network send: target URL, headers, and body. -/
inductive ForwardAction where
  | send (target : String) (headers : List (String × String)) (body : Option (List Nat))
  | fail (msg : String)
deriving Repr, DecidableEq

/-- Embedding of `HttpForwardHandler::http_forward`: resolve the upstream URL, then
call `do_forward_request(incoming)`; on resolution failure return the
error. -/
def httpForward (cfg : BotwafProperties) (incoming : HttpIncomingRequest) :
    ForwardAction :=
  match getUpstreamUrl cfg incoming with
  | .ok _url => .send (forwardRequestTarget incoming) (forwardedHeaders cfg incoming) incoming.body
  | .error e => .fail e

/-! ## IP filter (`src/server/src/waf/ipfilter_redis.rs`)

The Redis bitmap at the filter's fixed key is modelled as a function
from bit offsets to bits; `SETBIT`/`GETBIT` are point update and point
read.  The `std::net` IP-address parser `IpAddr::from_str` is external
library code and enters as a parameter `parseIp`; a parse failure is the
propagated `Err` of the `?` operator. -/

/-- Model of `std::net::IpAddr` after parsing: four IPv4 octets, or the sixteen
IPv6 octets as returned by `Ipv6Addr::octets()`. -/
inductive IpAddr where
  | v4 (a b c d : Nat)
  | v6 (octets : List Nat)
deriving Repr, DecidableEq

/-- Model of `u32::from(ipv4)`: the address's big-endian octets as a 32-bit
integer. -/
def ipv4ToU32 (a b c d : Nat) : Nat :=
  ((a * 256 + b) * 256 + c) * 256 + d

/-- The IPv6 loop of `get_ip_bitmap_offset`: eight iterations of
`result = (result << 8) | (((octets[2i] as u16) << 8) | octets[2i+1])`
on a `u64` accumulator. -/
def ipv6Fold (octets : List Nat) : Nat :=
  (List.range 8).foldl
    (fun r i =>
      let g := ((octets.getD (2 * i) 0 <<< 8) % 65536) ||| octets.getD (2 * i + 1) 0
      ((r <<< 8) % 18446744073709551616) ||| g)
    0

/-- Embedding of `RedisIPFilter::get_ip_bitmap_offset` after IP parsing: IPv4 maps to
`u32::from(ipv4) as u64`; IPv6 folds its octets and reduces modulo
`u32::MAX as u64` (that is, modulo `2^32 - 1`). -/
def ipBitmapOffset (ip : IpAddr) : Nat :=
  match ip with
  | .v4 a b c d => ipv4ToU32 a b c d
  | .v6 octets => ipv6Fold octets % 4294967295

/-- The Redis bitmap value at the filter's key. -/
abbrev Bitmap := Nat → Bool

/-- Model of Redis `GETBIT`. -/
def getBit (m : Bitmap) (off : Nat) : Bool := m off

/-- Model of Redis `SETBIT`: returns the prior bit and the updated bitmap. -/
def setBit (m : Bitmap) (off : Nat) (v : Bool) : Bool × Bitmap :=
  (m off, fun o => if o = off then v else m o)

/-- Embedding of `RedisIPFilter::get_client_ip`: the `client_ip` of the incoming
request, or an error when absent. -/
def getClientIp (incoming : HttpIncomingRequest) : Except String String :=
  match incoming.clientIp with
  | some ip => .ok ip
  | none => .error "Client IP not found"

/-- Embedding of `RedisIPFilter::get_ip_bitmap_offset`: parse the client IP and map
it to a bitmap offset. -/
def getIpBitmapOffset (parseIp : String → Option IpAddr)
    (incoming : HttpIncomingRequest) : Except String Nat :=
  match getClientIp incoming with
  | .error e => .error e
  | .ok s =>
      match parseIp s with
      | none => .error "invalid IP address syntax"
      | some ip => .ok (ipBitmapOffset ip)

/-- Embedding of `RedisIPFilter::is_blocked`: read the bit at the client IP's
offset. -/
def isBlocked (parseIp : String → Option IpAddr) (st : Bitmap)
    (incoming : HttpIncomingRequest) : Except String Bool :=
  match getIpBitmapOffset parseIp incoming with
  | .error e => .error e
  | .ok off => .ok (getBit st off)

/-- Embedding of `RedisIPFilter::block_ip`: set the bit at the client IP's offset;
returns the prior bit and the updated bitmap. -/
def blockIp (parseIp : String → Option IpAddr) (st : Bitmap)
    (incoming : HttpIncomingRequest) : Except String (Bool × Bitmap) :=
  match getIpBitmapOffset parseIp incoming with
  | .error e => .error e
  | .ok off => .ok (setBit st off true)

/-- Embedding of `RedisIPFilter::unblock_ip`: clear the bit at the client IP's
offset; returns the prior bit and the updated bitmap. -/
def unblockIp (parseIp : String → Option IpAddr) (st : Bitmap)
    (incoming : HttpIncomingRequest) : Except String (Bool × Bitmap) :=
  match getIpBitmapOffset parseIp incoming with
  | .error e => .error e
  | .ok off => .ok (setBit st off false)

/-! ## Rule-id extraction (`botwaf_middleware` in `src/server/server.rs`)

The middleware extracts the triggering rule id from the intervention log
with the regex `\[id "\s*(\d+)\s*"\]` (note the literal single space
after `id`), taking the leftmost match.  `matchIdAt` matches the pattern
at the head of the character list; `findIdAux` scans left to right. -/

/-- Characters of the regex whitespace class `\s` (ASCII range). -/
def isSpaceChar (c : Char) : Bool :=
  c = ' ' || c = '\t' || c = '\n' || c = '\r' || c = '\x0b' || c = '\x0c'

/-- Match `\[id "\s*(\d+)\s*"\]` at the head of the list, returning the
captured digits. -/
def matchIdAt : List Char → Option String
  | '[' :: 'i' :: 'd' :: ' ' :: '"' :: rest =>
      let rest1 := rest.dropWhile isSpaceChar
      let digits := rest1.takeWhile Char.isDigit
      let rest2 := rest1.dropWhile Char.isDigit
      if digits.isEmpty then none
      else
        match rest2.dropWhile isSpaceChar with
        | '"' :: ']' :: _ => some (String.mk digits)
        | _ => none
  | _ => none

/-- Scan for the leftmost match of the rule-id pattern. -/
def findIdAux : List Char → Option String
  | [] => none
  | c :: rest =>
      match matchIdAt (c :: rest) with
      | some s => some s
      | none => findIdAux rest

/-- Embedding of `Regex::new(r#"\[id "\s*(\d+)\s*"\]"#).captures(log)`: the digits of
the leftmost rule-id bracket in the log text. -/
def extractRuleId (log : String) : Option String :=
  findIdAux log.data

/-! ## Middleware (`botwaf_middleware` in `src/server/server.rs`) -/

/-- The rule engine's intervention: status code (`i32`) and optional log
text. -/
structure Intervention where
  status : Int
  log : Option String
deriving Repr, DecidableEq

/-- Truncating cast `as u16` on an `i32`. -/
def u16OfInt (s : Int) : Nat := (s % 65536).toNat

/-- Model of `StatusCode::from_u16`: valid for 100..=999, error otherwise. -/
def statusFromU16 (n : Nat) : Option Nat :=
  if 100 ≤ n ∧ n ≤ 999 then some n else none

/-- Model of `Result::unwrap_or`. -/
def unwrapOr {ε α : Type} (r : Except ε α) (d : α) : α :=
  match r with
  | .ok a => a
  | .error _ => d

/-- The rule-id reported in the denial header: `"Masked"` unless
`allow_addition_modsec_info`, in which case the regex capture with
fallback `"Unknown"`. -/
def ruleIdOf (cfg : BotwafProperties) (iv : Intervention) : String :=
  if cfg.allowAdditionModsecInfo then
    (iv.log.bind extractRuleId).getD "Unknown"
  else "Masked"

/-- The status code of a rule-engine denial:
`services.blocked_status_code` unwrapped through `StatusCode::from_u16`
when configured (`none` models the `unwrap` panic on an invalid code),
else the intervention status with fallback 500. -/
def ruleDenyCode (cfg : BotwafProperties) (iv : Intervention) : Option Nat :=
  match cfg.blockedStatusCode with
  | some c => statusFromU16 c
  | none => some ((statusFromU16 (u16OfInt iv.status)).getD 500)

/-- Outcome of one `botwaf_middleware` invocation.  `ρ` is the response
type of the forwarder.  Each constructor records which branch of the
middleware produced the response. -/
inductive Outcome (ρ : Type) where
  | nextRun
  | panicked (msg : String)
  | ipDenied (status : Nat) (body : String)
  | ruleDenied (status : Nat) (headerName headerValue : String) (body : String)
  | forwarded (resp : ρ)
  | gatewayError (status : Nat) (body : String)
deriving Repr, DecidableEq

/-- The tail of the middleware after the IP-filter check: rule-engine
intervention inspection, then forwarding.  `forwardResult` is the result
of `state.forwarder.http_forward(incoming)`. -/
def ruleEngineAndForward {ρ : Type} (cfg : BotwafProperties)
    (intervention : Option Intervention) (forwardResult : Except String ρ) :
    Outcome ρ :=
  let fwd : Outcome ρ :=
    match forwardResult with
    | .ok r => .forwarded r
    | .error _ => .gatewayError 500 "Gateway Forwarded Error"
  match intervention with
  | some iv =>
      if iv.status = 401 ∨ iv.status = 403 then
        match ruleDenyCode cfg iv with
        | none => .panicked "called Option::unwrap on a None value"
        | some c =>
            .ruleDenied c cfg.blockedHeaderName (ruleIdOf cfg iv)
              "Access denied by BotWaf Threaten"
      else fwd
  | none => fwd

/-- Embedding of `botwaf_middleware`: excluded paths bypass inspection; a blocked
client IP is denied with `blocked_status_code.unwrap()` (panicking when
the option is `none` or the code is invalid); an IP-filter error is
swallowed by `unwrap_or(false)`; then the rule-engine step and the
forwarder run. -/
def botwafMiddleware {ρ : Type} (excludedPaths : List String)
    (cfg : BotwafProperties) (path : String)
    (ipBlockedResult : Except String Bool)
    (intervention : Option Intervention)
    (forwardResult : Except String ρ) : Outcome ρ :=
  if path ∈ excludedPaths then .nextRun
  else if unwrapOr ipBlockedResult false then
    match cfg.blockedStatusCode with
    | none => .panicked "called Option::unwrap on a None value"
    | some c =>
        match statusFromU16 c with
        | none => .panicked "called Result::unwrap on an Err value"
        | some c => .ipDenied c "Access denied by BotWaf IP Filter"
  else ruleEngineAndForward cfg intervention forwardResult

/-! ## Specification-side definitions

These definitions follow the words of the specification (not the code)
and exist only to be compared with the embedded code above. -/

/-- Groups of an IPv6 address: the eight 16-bit groups formed from the
sixteen octets, high octet first. -/
def octetsToGroups (octets : List Nat) : List Nat :=
  (List.range 8).map (fun i => 256 * octets.getD (2 * i) 0 + octets.getD (2 * i + 1) 0)

/-- The IPv6 offset as claim C3 states it: the 128-bit integer obtained
by concatenating the eight 16-bit groups, taken modulo 2^32. -/
def claimedIpv6Offset (octets : List Nat) : Nat :=
  ((octetsToGroups octets).foldl (fun r g => r * 65536 + g) 0) % 4294967296

/-- The IPv6 fold as the amended claim C3 states it: over the eight
16-bit groups, `result = (result << 8) | group` on 64 bits, so adjacent
groups overlap by eight bits. -/
def amendedIpv6Fold (groups : List Nat) : Nat :=
  groups.foldl (fun r g => ((r <<< 8) % 18446744073709551616) ||| g) 0

/-- Match of the rule-id regex as claim C2 states it,
`\[id\s+"\s*(\d+)\s*"\]`: one-or-more whitespace characters between `id`
and the opening quote (the code requires a single literal space). -/
def claimedMatchIdAt : List Char → Option String
  | '[' :: 'i' :: 'd' :: rest =>
      let sp := rest.takeWhile isSpaceChar
      let rest0 := rest.dropWhile isSpaceChar
      if sp.isEmpty then none
      else
        match rest0 with
        | '"' :: rest1 =>
            let rest2 := rest1.dropWhile isSpaceChar
            let digits := rest2.takeWhile Char.isDigit
            let rest3 := rest2.dropWhile Char.isDigit
            if digits.isEmpty then none
            else
              match rest3.dropWhile isSpaceChar with
              | '"' :: ']' :: _ => some (String.mk digits)
              | _ => none
        | _ => none
  | _ => none

/-- Scan for the leftmost match of the claimed rule-id pattern. -/
def claimedFindIdAux : List Char → Option String
  | [] => none
  | c :: rest =>
      match claimedMatchIdAt (c :: rest) with
      | some s => some s
      | none => claimedFindIdAux rest

/-- Rule-id extraction by the regex claim C2 quotes,
`\[id\s+"\s*(\d+)\s*"\]`. -/
def claimedExtractRuleId (log : String) : Option String :=
  claimedFindIdAux log.data

/-! ## Concrete fixtures used by counterexamples and witnesses -/

/-- Shorthand for a raw request with the given headers, path, body and
peer address. -/
def mkRaw (headers : List (String × String)) (path : String)
    (body : List Nat) (peer : Option String) : RawRequest :=
  { method := "GET"
    scheme := none
    host := none
    port := none
    path := path
    query := none
    headers := headers
    body := body
    peerAddr := peer }

/-- A configuration whose upstream-destination header name is spelled in
lowercase, so that the exact map lookup of `get_upstream_url` can
succeed. -/
def lowerCfg : BotwafProperties :=
  { BotwafProperties.default with
    forward := { ForwardProperties.default with
                 upstreamDestinationHeaderName := "x-upstream-destination" } }

/-- An incoming request carrying the upstream-destination header (under
its lowercased map key) for path `/a`. -/
def exForwardIncoming : HttpIncomingRequest :=
  { method := "GET"
    scheme := none
    host := none
    port := none
    headers := [("x-upstream-destination", some "http://u/")]
    path := "/a"
    query := none
    body := none
    clientIp := none }

/-- A raw request with a `Host` header and a thrice-repeated `Accept`
header. -/
def rawC5 : RawRequest :=
  mkRaw [("Host", "example.com"), ("Accept", "a"), ("Accept", "b"), ("Accept", "c")]
    "/a" [] (some "9.9.9.9")

/-- The ingress result for `rawC5`. -/
def incC5 : HttpIncomingRequest :=
  { method := "GET"
    scheme := none
    host := none
    port := none
    headers := [("host", some "example.com"), ("accept", some "c")]
    path := "/a"
    query := none
    body := some []
    clientIp := some "9.9.9.9" }

/-- A raw request whose `X-Forwarded-For` header lists two addresses. -/
def rawC6 : RawRequest :=
  mkRaw [("x-forwarded-for", "1.2.3.4, 5.6.7.8")] "/a" [] (some "9.9.9.9")

/-- A raw request whose `X-Forwarded-For` header is a single address. -/
def rawC6w : RawRequest :=
  mkRaw [("x-forwarded-for", "7.7.7.7")] "/a" [] (some "9.9.9.9")

/-- The ingress result for `rawC6w`. -/
def incC6w : HttpIncomingRequest :=
  { method := "GET"
    scheme := none
    host := none
    port := none
    headers := [("x-forwarded-for", some "7.7.7.7")]
    path := "/a"
    query := none
    body := some []
    clientIp := some "7.7.7.7" }

/-- The sixteen octets of the IPv6 address `::ffff:ffff`. -/
def exV6Octets : List Nat :=
  [0, 0, 0, 0, 0, 0, 0, 0, 0, 0, 0, 0, 255, 255, 255, 255]

/-- The sixteen octets of the IPv6 address `2001:db8::1`. -/
def exV6Db8 : List Nat :=
  [32, 1, 13, 184, 0, 0, 0, 0, 0, 0, 0, 0, 0, 0, 0, 1]

/-- An IP parser fixture resolving exactly the two addresses the
witnesses use; it stands in for `std::net::IpAddr::from_str`. -/
def exParseIp : String → Option IpAddr :=
  fun s =>
    if s = "2001:db8::1" then some (.v6 exV6Db8)
    else if s = "10.0.0.1" then some (.v4 10 0 0 1)
    else none

/-- An incoming request whose client IP is `2001:db8::1`. -/
def exIncomingV6 : HttpIncomingRequest :=
  { method := "GET"
    scheme := none
    host := none
    port := none
    headers := []
    path := "/a"
    query := none
    body := some []
    clientIp := some "2001:db8::1" }

/-- An incoming request whose client IP string is not an IP address. -/
def exIncomingBadIp : HttpIncomingRequest :=
  { exIncomingV6 with clientIp := some "not-an-ip" }

/-- The all-zero bitmap. -/
def emptyBitmap : Bitmap := fun _ => false

/-! ## Helper lemmas -/

/-- Disjoint bitwise or is addition: `2^n * a ||| b = 2^n * a + b` when
`b < 2^n`. -/
theorem two_pow_mul_lor_eq_add {n a b : Nat} (hb : b < 2 ^ n) :
    (2 ^ n * a) ||| b = 2 ^ n * a + b := by
  apply Nat.eq_of_testBit_eq
  intro j
  rw [Nat.testBit_lor, Nat.testBit_mul_pow_two_add a hb j, Nat.testBit_mul_pow_two]
  by_cases h : j < n
  · have hnj : ¬ j ≥ n := by omega
    simp [h, hnj]
  · have hj : j ≥ n := by omega
    have hbj : b.testBit j = false :=
      Nat.testBit_lt_two_pow (lt_of_lt_of_le hb (Nat.pow_le_pow_right (by norm_num) hj))
    simp [h, hj, hbj]

/-- An IPv6 group built from two octets equals its arithmetic value. -/
theorem group_lor_eq_add {o o' : Nat} (h1 : o < 256) (h2 : o' < 256) :
    ((o <<< 8) % 65536) ||| o' = 256 * o + o' := by
  have h256 : (2 : Nat) ^ 8 = 256 := by norm_num
  have hs : o <<< 8 = 2 ^ 8 * o := by rw [Nat.shiftLeft_eq, Nat.mul_comm]
  have hlt : 2 ^ 8 * o < 65536 := by rw [h256]; omega
  have hb : o' < 2 ^ 8 := by rw [h256]; omega
  rw [hs, Nat.mod_eq_of_lt hlt, two_pow_mul_lor_eq_add hb, h256]

/-- Bounded entries give a bounded `getD` with default 0. -/
theorem getD_lt_of_forall (l : List Nat) (i : Nat) (h : ∀ x ∈ l, x < 256) :
    l.getD i 0 < 256 := by
  induction l generalizing i with
  | nil => simp [List.getD]
  | cons x xs ih =>
      cases i with
      | zero => simpa [List.getD] using h x (by simp)
      | succ j => simpa [List.getD] using ih j (fun y hy => h y (by simp [hy]))

/-- The rule-engine-and-forward tail of the middleware never produces
the IP-filter denial. -/
theorem ruleEngineAndForward_ne_ipDenied {ρ : Type} (cfg : BotwafProperties)
    (iv : Option Intervention) (fwd : Except String ρ) (st : Nat) (b : String) :
    ruleEngineAndForward cfg iv fwd ≠ Outcome.ipDenied st b := by
  rcases iv with _ | iv
  · rcases fwd with e | r <;> simp [ruleEngineAndForward]
  · by_cases h : iv.status = 401 ∨ iv.status = 403
    · rcases hc : ruleDenyCode cfg iv with _ | c <;>
        simp [ruleEngineAndForward, h, hc]
    · rcases fwd with e | r <;> simp [ruleEngineAndForward, h]

/-! ## Claims -/

/-- C1: the claim states that the forwarder looks up the
upstream-destination header case-insensitively and sends the outgoing
request to `base + path`.  In the code, `get_upstream_url` performs an
exact (case-sensitive) `HashMap` lookup with the configured name — under
the default mixed-case name it never matches the lowercased map keys —
and even when the lookup succeeds, `http_forward` discards the computed
URL and `do_forward_request` issues the request to `incoming.path`. -/
theorem c1_forward_target_is_path_not_upstream_url :
    getUpstreamUrl BotwafProperties.default exForwardIncoming =
      .error "Missing upstream destination header with X-Upstream-Destination" ∧
    getUpstreamUrl lowerCfg exForwardIncoming = .ok "http://u/a" ∧
    httpForward lowerCfg exForwardIncoming =
      .send "/a" (forwardedHeaders lowerCfg exForwardIncoming) exForwardIncoming.body ∧
    "/a" ≠ "http://u/a" := by
  refine ⟨rfl, rfl, rfl, by decide⟩

/-- C2 counterexample: for the blocked request with intervention log
`[id  "123"]` (two spaces, matched by the regex the claim quotes, which
extracts `123`) the denial header value is the literal `Unknown`,
which is neither the extracted rule id nor `Masked`. -/
theorem c2_counterexample :
    botwafMiddleware ["/healthz"] BotwafProperties.default "/x" (.ok false)
        (some ⟨403, some "[id  \x22123\x22]"⟩) (Except.ok (0 : Nat)) =
      .ruleDenied 403 "X-BotWaf-Blocked" "Unknown" "Access denied by BotWaf Threaten" ∧
    claimedExtractRuleId "[id  \x22123\x22]" = some "123" ∧
    ("Unknown" : String) ≠ "123" ∧ ("Unknown" : String) ≠ "Masked" := by
  refine ⟨by decide, by decide, by decide, by decide⟩

/-- C2 (amended): for every request blocked by the rule engine
(intervention status 401 or 403), the denial status equals
`services.blocked_status_code` when configured (and valid), else the
intervention status, and the response carries the
`blocked_header_name` header whose value is the rule id extracted via
the code's regex `\[id "\s*(\d+)\s*"\]` (single literal space) when
`services.allow_addition_modsec_info` is true and the regex matches,
the literal `Unknown` when it is true and there is no match, and the
literal `Masked` when it is false. -/
theorem c2_blocked_response_amended {ρ : Type} (excl : List String)
    (cfg : BotwafProperties) (path : String) (iv : Intervention)
    (fwd : Except String ρ) (hpath : path ∉ excl)
    (hst : iv.status = 401 ∨ iv.status = 403)
    (hcode : ∀ c, cfg.blockedStatusCode = some c → 100 ≤ c ∧ c ≤ 999) :
    botwafMiddleware excl cfg path (.ok false) (some iv) fwd =
      .ruleDenied (cfg.blockedStatusCode.getD (u16OfInt iv.status))
        cfg.blockedHeaderName
        (if cfg.allowAdditionModsecInfo then
          (iv.log.bind extractRuleId).getD "Unknown"
         else "Masked")
        "Access denied by BotWaf Threaten" := by
  have hcode' : ruleDenyCode cfg iv =
      some (cfg.blockedStatusCode.getD (u16OfInt iv.status)) := by
    rcases hcfg : cfg.blockedStatusCode with _ | c
    · rcases hst with h | h <;>
        simp [ruleDenyCode, hcfg, statusFromU16, u16OfInt, h]
    · obtain ⟨h1, h2⟩ := hcode c hcfg
      simp [ruleDenyCode, hcfg, statusFromU16, h1, h2]
  have h0 : botwafMiddleware excl cfg path (Except.ok false) (some iv) fwd
      = ruleEngineAndForward cfg (some iv) fwd := by
    simp [botwafMiddleware, hpath, unwrapOr]
  rw [h0]
  simp [ruleEngineAndForward, hst, hcode', ruleIdOf]

/-- C2 witness: the amended statement at a concrete blocked request
whose log carries `[id "950001"]`. -/
theorem c2_blocked_response_witness :
    botwafMiddleware ["/healthz"] BotwafProperties.default "/x" (.ok false)
        (some ⟨403, some "[id \x22950001\x22]"⟩) (Except.ok (0 : Nat)) =
      .ruleDenied 403 "X-BotWaf-Blocked" "950001"
        "Access denied by BotWaf Threaten" := by
  have h := c2_blocked_response_amended ["/healthz"] BotwafProperties.default
    "/x" ⟨403, some "[id \x22950001\x22]"⟩ (Except.ok (0 : Nat))
    (by decide) (Or.inr rfl)
    (fun c hc => by simp [BotwafProperties.default] at hc)
  rw [h]
  decide

/-- C3 counterexample: for `::ffff:ffff` the code's offset is
`16777215`, while the claimed offset — the 128-bit group concatenation
modulo 2^32 — is `4294967295`. -/
theorem c3_counterexample :
    ipBitmapOffset (.v6 exV6Octets) = 16777215 ∧
    claimedIpv6Offset exV6Octets = 4294967295 ∧
    (16777215 : Nat) ≠ 4294967295 := by
  refine ⟨by decide, by decide, by decide⟩

/-- C3 (amended): the blocklist bitmap offset maps an IPv4 address to
`u32::from_be_bytes(octets)`; it maps an IPv6 address to the value of
the 64-bit fold `result = (result << 8) | group` over its eight 16-bit
groups (adjacent groups overlap by eight bits), taken modulo
`2^32 - 1` (`u32::MAX`), not the 128-bit concatenation modulo 2^32. -/
theorem c3_offset_amended :
    (∀ a b c d : Nat,
      ipBitmapOffset (.v4 a b c d) = ((a * 256 + b) * 256 + c) * 256 + d) ∧
    (∀ octets : List Nat, (∀ x ∈ octets, x < 256) →
      ipBitmapOffset (.v6 octets) =
        amendedIpv6Fold (octetsToGroups octets) % 4294967295) := by
  constructor
  · intro a b c d; rfl
  · intro octets h
    show ipv6Fold octets % 4294967295 = _
    congr 1
    unfold ipv6Fold amendedIpv6Fold octetsToGroups
    rw [List.foldl_map]
    apply List.foldl_ext
    intro r i _
    simp only []
    rw [group_lor_eq_add (getD_lt_of_forall octets (2 * i) h)
      (getD_lt_of_forall octets (2 * i + 1) h)]

/-- C3 witness: the amended statement at `10.0.0.1` and `2001:db8::1`. -/
theorem c3_offset_amended_witness :
    ipBitmapOffset (.v4 10 0 0 1) = 167772161 ∧
    ipBitmapOffset (.v6 exV6Db8) =
      amendedIpv6Fold (octetsToGroups exV6Db8) % 4294967295 :=
  ⟨(c3_offset_amended.1 10 0 0 1).trans (by norm_num),
   c3_offset_amended.2 exV6Db8 (by decide)⟩

/-- C4: the claim states the ingress adapter caps the body at
`forward.max_body_bytes` and fails with `BodyTooLarge` (HTTP 413) one
byte over.  In the code, `HttpIncomingRequest::new` reads the body with
the hard-coded literal cap `to_bytes(body, 65535)` — it takes no
configuration at all — and `.expect(..)` panics on overflow instead of
returning an error. -/
theorem c4_body_cap_hardcoded (raw : RawRequest) :
    HttpIncomingRequest.new raw = none ↔ 65535 < raw.body.length := by
  unfold HttpIncomingRequest.new toBytes
  by_cases h : raw.body.length ≤ 65535
  · rw [if_pos h]
    simp only []
    constructor
    · intro hcontra
      exact absurd hcontra (by simp)
    · intro hcontra
      omega
  · rw [if_neg h]
    simp only []
    constructor
    · intro _
      omega
    · intro _
      trivial

/-- C4 witness: a one-byte body is materialized; the boundary sits at
the literal 65535 for every request. -/
theorem c4_body_cap_witness :
    HttpIncomingRequest.new (mkRaw [] "/x" [7] none) ≠ none := by
  intro hnone
  have h := (c4_body_cap_hardcoded (mkRaw [] "/x" [7] none)).mp hnone
  exact absurd h (by decide)

/-- C5: the claim states that forwarded headers are the incoming ones
minus exactly the upstream-destination, `HOST` and `CONNECTION`
headers, with duplicate values preserved in order.  In the code the
skip list compares against the literal `POST` — an evident typo for
`HOST` — so a `Host` header is forwarded (while a header literally
named `post` would be dropped), and the ingress `HashMap` holds a
single value per name, so a repeated header keeps only its last
value. -/
theorem c5_host_forwarded_multivalue_collapsed :
    HttpIncomingRequest.new rawC5 = some incC5 ∧
    ("HOST", "example.com") ∈ forwardedHeaders BotwafProperties.default incC5 ∧
    ("ACCEPT", "a") ∉ forwardedHeaders BotwafProperties.default incC5 ∧
    ("ACCEPT", "b") ∉ forwardedHeaders BotwafProperties.default incC5 ∧
    ("ACCEPT", "c") ∈ forwardedHeaders BotwafProperties.default incC5 ∧
    forwardedHeaders BotwafProperties.default
        { incC5 with headers := [("post", some "x")] } = [] := by
  refine ⟨by decide, by decide, by decide, by decide, by decide, by decide⟩

/-- C6 counterexample: with `X-Forwarded-For: 1.2.3.4, 5.6.7.8` the
extracted client IP is the whole header value, not the leftmost
token. -/
theorem c6_counterexample :
    (HttpIncomingRequest.new rawC6).map HttpIncomingRequest.clientIp =
      some (some "1.2.3.4, 5.6.7.8") ∧
    (some (some "1.2.3.4, 5.6.7.8") : Option (Option String)) ≠
      some (some "1.2.3.4") := by
  refine ⟨by decide, by decide⟩

/-- C6 (amended): for every inbound request the extracted `client_ip`
is the entire value of the `X-Forwarded-For` header when present (not
its leftmost token), otherwise the `X-Real-IP` header value, otherwise
the transport peer address. -/
theorem c6_client_ip_amended (raw : RawRequest) (inc : HttpIncomingRequest)
    (h : HttpIncomingRequest.new raw = some inc) :
    (∀ v, headerGetFirst raw.headers "X-Forwarded-For" = some v →
      inc.clientIp = some v) ∧
    (headerGetFirst raw.headers "X-Forwarded-For" = none →
      ∀ v, headerGetFirst raw.headers "X-Real-IP" = some v →
        inc.clientIp = some v) ∧
    (headerGetFirst raw.headers "X-Forwarded-For" = none →
      headerGetFirst raw.headers "X-Real-IP" = none →
        inc.clientIp = raw.peerAddr) := by
  have hci : inc.clientIp = extractClientIp raw := by
    unfold HttpIncomingRequest.new at h
    rcases htb : toBytes raw.body 65535 with _ | bytes
    · rw [htb] at h
      cases h
    · rw [htb] at h
      simp only [Option.some.injEq] at h
      rw [← h]
  refine ⟨?_, ?_, ?_⟩
  · intro v hv
    rw [hci]
    unfold extractClientIp
    rw [hv]
    rfl
  · intro h1 v hv
    rw [hci]
    unfold extractClientIp
    rw [h1, hv]
    rfl
  · intro h1 h2
    rw [hci]
    unfold extractClientIp
    rw [h1, h2]
    rfl

/-- C6 witness: the amended statement at a request whose
`X-Forwarded-For` is a single address. -/
theorem c6_client_ip_witness : incC6w.clientIp = some "7.7.7.7" :=
  (c6_client_ip_amended rawC6w incC6w (by decide)).1 "7.7.7.7" (by decide)

/-- C7: for every non-excluded request, an IP-filter backend error is
swallowed by `unwrap_or(false)`: the middleware behaves exactly as if
the filter had reported "not blocked", proceeds to the rule-engine
step, and never produces the IP-filter denial. -/
theorem c7_ipfilter_fail_open {ρ : Type} (excl : List String)
    (cfg : BotwafProperties) (path : String) (e : String)
    (iv : Option Intervention) (fwd : Except String ρ) (hpath : path ∉ excl) :
    botwafMiddleware excl cfg path (.error e) iv fwd =
      ruleEngineAndForward cfg iv fwd ∧
    botwafMiddleware excl cfg path (.error e) iv fwd =
      botwafMiddleware excl cfg path (.ok false) iv fwd ∧
    (∀ st b, botwafMiddleware excl cfg path (.error e) iv fwd ≠
      Outcome.ipDenied st b) := by
  have h1 : botwafMiddleware excl cfg path (.error e) iv fwd =
      ruleEngineAndForward cfg iv fwd := by
    simp [botwafMiddleware, hpath, unwrapOr]
  have h2 : botwafMiddleware excl cfg path (.ok false) iv fwd =
      ruleEngineAndForward cfg iv fwd := by
    simp [botwafMiddleware, hpath, unwrapOr]
  refine ⟨h1, h1.trans h2.symm, ?_⟩
  intro st b
  rw [h1]
  exact ruleEngineAndForward_ne_ipDenied cfg iv fwd st b

/-- C7 witness: the fail-open equation at a concrete request with a
failing cache backend. -/
theorem c7_ipfilter_fail_open_witness :
    botwafMiddleware ["/healthz"] BotwafProperties.default "/x"
        (.error "redis connection refused") none (Except.ok (0 : Nat)) =
      ruleEngineAndForward BotwafProperties.default none (Except.ok (0 : Nat)) :=
  (c7_ipfilter_fail_open ["/healthz"] BotwafProperties.default "/x"
    "redis connection refused" none (Except.ok 0) (by decide)).1

/-- C8: assuming the SETBIT/GETBIT bitmap semantics of the backing
cache, for every request whose client IP parses (IPv4 or IPv6),
`block_ip` followed by `is_blocked` returns true and `unblock_ip`
followed by `is_blocked` returns false. -/
theorem c8_block_unblock_roundtrip (parseIp : String → Option IpAddr)
    (incoming : HttpIncomingRequest) (s : String) (ip : IpAddr) (st : Bitmap)
    (hip : incoming.clientIp = some s) (hparse : parseIp s = some ip) :
    (∀ prior st1, blockIp parseIp st incoming = .ok (prior, st1) →
      isBlocked parseIp st1 incoming = .ok true) ∧
    (∀ prior st1, unblockIp parseIp st incoming = .ok (prior, st1) →
      isBlocked parseIp st1 incoming = .ok false) ∧
    (∃ prior st1, blockIp parseIp st incoming = .ok (prior, st1)) ∧
    (∃ prior st1, unblockIp parseIp st incoming = .ok (prior, st1)) := by
  have hofs : getIpBitmapOffset parseIp incoming = .ok (ipBitmapOffset ip) := by
    simp [getIpBitmapOffset, getClientIp, hip, hparse]
  have hblock : blockIp parseIp st incoming =
      .ok (st (ipBitmapOffset ip),
        fun o => if o = ipBitmapOffset ip then true else st o) := by
    simp [blockIp, hofs, setBit]
  have hunblock : unblockIp parseIp st incoming =
      .ok (st (ipBitmapOffset ip),
        fun o => if o = ipBitmapOffset ip then false else st o) := by
    simp [unblockIp, hofs, setBit]
  refine ⟨?_, ?_, ⟨_, _, hblock⟩, ⟨_, _, hunblock⟩⟩
  · intro prior st1 h
    rw [hblock] at h
    injection h with h
    injection h with hp hs
    rw [← hs]
    simp [isBlocked, hofs, getBit]
  · intro prior st1 h
    rw [hunblock] at h
    injection h with h
    injection h with hp hs
    rw [← hs]
    simp [isBlocked, hofs, getBit]

/-- C8 witness: blocking and unblocking `2001:db8::1` at concrete
bitmap states. -/
theorem c8_block_unblock_witness :
    isBlocked exParseIp
      (fun o => if o = ipBitmapOffset (.v6 exV6Db8) then true else emptyBitmap o)
      exIncomingV6 = .ok true ∧
    isBlocked exParseIp
      (fun o => if o = ipBitmapOffset (.v6 exV6Db8) then false else emptyBitmap o)
      exIncomingV6 = .ok false :=
  ⟨(c8_block_unblock_roundtrip exParseIp exIncomingV6 "2001:db8::1"
      (.v6 exV6Db8) emptyBitmap rfl rfl).1 _ _ rfl,
   (c8_block_unblock_roundtrip exParseIp exIncomingV6 "2001:db8::1"
      (.v6 exV6Db8) emptyBitmap rfl rfl).2.1 _ _ rfl⟩

/-- C9: with the shipped default configuration
(`blocked_status_code = None`) a request the IP filter reports as
blocked makes the middleware unwrap the `None` and panic instead of
producing an HTTP denial; the deny path yields a response exactly when
`blocked_status_code` is a valid status code. -/
theorem c9_ip_deny_unwrap_panic {ρ : Type} :
    BotwafProperties.default.blockedStatusCode = none ∧
    (∀ (excl : List String) (path : String) (iv : Option Intervention)
        (fwd : Except String ρ) (cfg : BotwafProperties),
      path ∉ excl → cfg.blockedStatusCode = none →
      botwafMiddleware excl cfg path (.ok true) iv fwd =
        .panicked "called Option::unwrap on a None value") ∧
    (∀ (excl : List String) (path : String) (iv : Option Intervention)
        (fwd : Except String ρ) (cfg : BotwafProperties) (c : Nat),
      path ∉ excl → cfg.blockedStatusCode = some c → 100 ≤ c → c ≤ 999 →
      botwafMiddleware excl cfg path (.ok true) iv fwd =
        .ipDenied c "Access denied by BotWaf IP Filter") := by
  refine ⟨rfl, ?_, ?_⟩
  · intro excl path iv fwd cfg hpath hcfg
    simp [botwafMiddleware, hpath, unwrapOr, hcfg]
  · intro excl path iv fwd cfg c hpath hcfg h1 h2
    simp [botwafMiddleware, hpath, unwrapOr, hcfg, statusFromU16, h1, h2]

/-- C9 witness: the panic at the default configuration and the denial
at a configuration with `blocked_status_code = 403`. -/
theorem c9_ip_deny_unwrap_witness :
    botwafMiddleware ["/healthz"] BotwafProperties.default "/x" (.ok true) none
        (Except.ok (0 : Nat)) = .panicked "called Option::unwrap on a None value" ∧
    botwafMiddleware ["/healthz"]
        { BotwafProperties.default with blockedStatusCode := some 403 } "/x"
        (.ok true) none (Except.ok (0 : Nat)) =
      .ipDenied 403 "Access denied by BotWaf IP Filter" :=
  ⟨c9_ip_deny_unwrap_panic.2.1 ["/healthz"] "/x" none (Except.ok 0)
      BotwafProperties.default (by decide) rfl,
   c9_ip_deny_unwrap_panic.2.2 ["/healthz"] "/x" none (Except.ok 0)
      { BotwafProperties.default with blockedStatusCode := some 403 } 403
      (by decide) rfl (by norm_num) (by norm_num)⟩

/-- C10: when `client_ip` is absent or does not parse as an IP
address, `is_blocked`, `block_ip` and `unblock_ip` all return an error
rather than a boolean, and under the pipeline's `unwrap_or(false)`
handling such a request is never denied by the IP filter. -/
theorem c10_unparseable_client_ip_errors (parseIp : String → Option IpAddr)
    (st : Bitmap) (incoming : HttpIncomingRequest)
    (h : incoming.clientIp = none ∨
      ∃ s, incoming.clientIp = some s ∧ parseIp s = none) :
    (∃ e, isBlocked parseIp st incoming = .error e) ∧
    (∃ e, blockIp parseIp st incoming = .error e) ∧
    (∃ e, unblockIp parseIp st incoming = .error e) ∧
    (∀ (ρ : Type) (excl : List String) (cfg : BotwafProperties) (path : String)
        (iv : Option Intervention) (fwd : Except String ρ) (stc : Nat) (b : String),
      botwafMiddleware excl cfg path (isBlocked parseIp st incoming) iv fwd ≠
        Outcome.ipDenied stc b) := by
  have hofs : ∃ e, getIpBitmapOffset parseIp incoming = .error e := by
    rcases h with h | ⟨s, hs, hp⟩
    · exact ⟨"Client IP not found", by simp [getIpBitmapOffset, getClientIp, h]⟩
    · exact ⟨"invalid IP address syntax",
        by simp [getIpBitmapOffset, getClientIp, hs, hp]⟩
  obtain ⟨e, he⟩ := hofs
  have hib : isBlocked parseIp st incoming = .error e := by simp [isBlocked, he]
  refine ⟨⟨e, hib⟩, ⟨e, by simp [blockIp, he]⟩, ⟨e, by simp [unblockIp, he]⟩, ?_⟩
  intro ρ excl cfg path iv fwd stc b
  rw [hib]
  by_cases hpath : path ∈ excl
  · simp [botwafMiddleware, hpath]
  · have heq : botwafMiddleware excl cfg path (Except.error e) iv fwd =
        ruleEngineAndForward cfg iv fwd := by
      simp [botwafMiddleware, hpath, unwrapOr]
    rw [heq]
    exact ruleEngineAndForward_ne_ipDenied cfg iv fwd stc b

/-- C10 witness: the errors at a concrete request whose client IP
string is not an IP address. -/
theorem c10_unparseable_client_ip_witness :
    (∃ e, isBlocked exParseIp emptyBitmap exIncomingBadIp = .error e) ∧
    (∃ e, blockIp exParseIp emptyBitmap exIncomingBadIp = .error e) := by
  have h := c10_unparseable_client_ip_errors exParseIp emptyBitmap exIncomingBadIp
    (Or.inr ⟨"not-an-ip", rfl, by decide⟩)
  exact ⟨h.1, h.2.1⟩

end Botwaf
